import Mathlib

/-!
# Verification of the XAudio2 sandbox program (`src/main.cpp`)

The program is a straight-line sequence of platform API calls (XAudio2 and
Windows Media Foundation) with a single read loop.  We embed it shallowly:

* every platform API call the program makes is an `Event`;
* the platform's responses (HRESULT values, the `GUID`s returned by
  `GetGUID`, and the successive `ReadSample` results) form an `Env`;
* a program fragment is a `RunM α = Outcome α × List Event`: the outcome
  (normal return, thrown `_com_error`, failed `assert`, or a read loop that
  never receives a terminating flag) together with the ordered trace of the
  API calls actually performed before the fragment stopped.

Machine integers: `HRESULT` is a 32-bit signed value, modelled as `Int`;
the C++ macro `FAILED(hr)` is `hr < 0`.  `buffer.AudioBytes` is a `UINT32`
assigned from `std::vector::size()` (a `size_t`), an implicit narrowing
conversion, modelled as `% 2^32`.
-/

/-- GUIDs compared by the program: the audio major type and the two raw
audio subtypes (`MFAudioFormat_Float`, `MFAudioFormat_PCM`); every other
GUID value (e.g. `MFAudioFormat_MP3`) is `other n`. -/
inductive Guid where
  | mediaTypeAudio
  | audioFormatFloat
  | audioFormatPCM
  | other (n : Nat)
deriving DecidableEq

/-- The payload of a thrown `_com_error` exception: the failing HRESULT. -/
structure ComError where
  hr : Int
deriving DecidableEq

/-- One platform API call performed by the program, in source order.
`createSourceReaderFromURL` is the only call that receives a file path/URL;
it opens the named file for reading.  `submitSourceBuffer` records the
`AudioBytes` field and the byte sequence the submitted buffer points at.
The program makes no call that writes to a file or waits for playback to
complete; consequently no such event exists. -/
inductive Event where
  | coInitializeEx
  | xAudio2Create
  | createMasteringVoice
  | mfStartup
  | mfCreateAttributes
  | setLowLatency
  | createSourceReaderFromURL (file : String)
  | setStreamSelection (allStreams : Bool) (selected : Bool)
  | getNativeMediaType
  | getGUIDMajorType
  | getGUIDSubType
  | mfCreateMediaType
  | setGUIDMajorType
  | setGUIDSubType
  | setCurrentMediaType
  | getCurrentMediaType
  | createWaveFormat
  | readSample
  | convertToContiguousBuffer
  | lockBuffer
  | unlockBuffer
  | createSourceVoice
  | submitSourceBuffer (audioBytes : Nat) (data : List Nat)
  | startVoice
  | sleep (ms : Nat)
  | destroyVoice
  | mfShutdown
deriving DecidableEq

/-- How a program fragment ends: normal return, a thrown `_com_error`,
a failed `assert`, or the read loop running forever because the platform
never reports an end-of-stream or media-type-change flag. -/
inductive Outcome (α : Type) where
  | ok (a : α)
  | err (e : ComError)
  | aborted
  | hang
deriving DecidableEq

/-- A program fragment: its outcome and the trace of API calls it made. -/
def RunM (α : Type) : Type := Outcome α × List Event

/-- The C++ `FAILED` macro: the HRESULT's failure (sign) bit is set. -/
def FAILED (hr : Int) : Bool := decide (hr < 0)

/-- `throwOnFail` from `src/main.cpp`: throws `_com_error(hr)` when
`FAILED(hr)`, otherwise does nothing. -/
def throwOnFail (hr : Int) : Except ComError Unit :=
  if FAILED hr then Except.error ⟨hr⟩ else Except.ok ()

/-- Perform a platform call yielding HRESULT `hr`, wrapped in
`throwOnFail` as every checked call in the source is. -/
def call (e : Event) (hr : Int) : RunM Unit :=
  match throwOnFail hr with
  | Except.error er => (Outcome.err er, [e])
  | Except.ok _ => (Outcome.ok (), [e])

/-- Perform a platform call whose result the source ignores
(`voice->Start()`, `Sleep`, `DestroyVoice`, `MFShutdown`). -/
def emitEvent (e : Event) : RunM Unit := (Outcome.ok (), [e])

/-- A C `assert`: stops the program when the condition is false. -/
def assertCheck (b : Bool) : RunM Unit :=
  if b then (Outcome.ok (), []) else (Outcome.aborted, [])

/-- Return a value without calling the platform. -/
def pureRun {α : Type} (a : α) : RunM α := (Outcome.ok a, [])

/-- Sequencing: on a thrown exception, a failed assert or a hang, the rest
of the program does not run (the program catches no exception anywhere). -/
def bindRun {α β : Type} (r : RunM α) (f : α → RunM β) : RunM β :=
  match r.1 with
  | Outcome.ok a => ((f a).1, r.2 ++ (f a).2)
  | Outcome.err e => (Outcome.err e, r.2)
  | Outcome.aborted => (Outcome.aborted, r.2)
  | Outcome.hang => (Outcome.hang, r.2)

/-- `MF_SOURCE_READERF_ENDOFSTREAM` flag bit. -/
def ENDOFSTREAM_FLAG : Nat := 2

/-- `MF_SOURCE_READERF_CURRENTMEDIATYPECHANGED` flag bit. -/
def MEDIATYPECHANGED_FLAG : Nat := 32

/-- Test of the media-type-changed bit in the `ReadSample` flags. -/
def mediaTypeChangedFlag (flags : Nat) : Bool := flags &&& MEDIATYPECHANGED_FLAG != 0

/-- Test of the end-of-stream bit in the `ReadSample` flags. -/
def endOfStreamFlag (flags : Nat) : Bool := flags &&& ENDOFSTREAM_FLAG != 0

/-- The platform's response to one iteration of the read loop: the
`ReadSample` HRESULT and flags, the HRESULTs of the per-sample buffer
calls, and the bytes the locked media buffer holds. -/
structure ReadResult where
  hr : Int
  flags : Nat
  convertHr : Int
  lockHr : Int
  unlockHr : Int
  sampleData : List Nat
deriving DecidableEq

/-- All platform responses a run can observe, one field per call site of
the source, plus the stream of read-loop responses. -/
structure Env where
  coInitHr : Int
  xa2CreateHr : Int
  masteringHr : Int
  mfStartupHr : Int
  createAttrHr : Int
  setLowLatencyHr : Int
  createReaderHr : Int
  deselectAllHr : Int
  selectStreamHr : Int
  nativeTypeHr : Int
  majorTypeHr : Int
  majorType : Guid
  subTypeHr : Int
  subType : Guid
  createTypeHr : Int
  setMajorHr : Int
  setSubHr : Int
  setCurrentHr : Int
  getCurrentHr : Int
  waveFormatHr : Int
  waveFormatLen : Nat
  selectStream2Hr : Int
  reads : List ReadResult
  createVoiceHr : Int
  submitHr : Int

/-- `AudioFile` from `src/main.cpp`; `format` records which audio subtype
the produced `WAVEFORMATEX` describes. -/
structure AudioFile where
  data : List Nat
  format : Guid
  formatlength : Nat
deriving DecidableEq

/-- `initXAudio2` from the source: `CoInitializeEx` then `XAudio2Create`. -/
def initXAudio2 (env : Env) : RunM Unit :=
  bindRun (call Event.coInitializeEx env.coInitHr) fun _ =>
  call Event.xAudio2Create env.xa2CreateHr

/-- `createMasteringVoice` from the source (the `assert(xaudio2)` holds
trivially: the engine pointer is the one just created). -/
def createMasteringVoice (env : Env) : RunM Unit :=
  call Event.createMasteringVoice env.masteringHr

/-- `initWMF` from the source: `MFStartup`, `MFCreateAttributes`,
`SetUINT32(MF_LOW_LATENCY, true)`. -/
def initWMF (env : Env) : RunM Unit :=
  bindRun (call Event.mfStartup env.mfStartupHr) fun _ =>
  bindRun (call Event.mfCreateAttributes env.createAttrHr) fun _ =>
  call Event.setLowLatency env.setLowLatencyHr

/-- The `while (true)` read loop of `loadFile`, structured over the stream
of platform read responses.  Each iteration: `ReadSample` (checked), break
on the media-type-changed flag, break on the end-of-stream flag, else
`ConvertToContiguousBuffer`, `Lock`, append the `audioDataSize` bytes one
by one, `Unlock`, and continue.  If the platform responses are exhausted
without a terminating flag the C++ loop would keep calling `ReadSample`
forever: outcome `hang`. -/
def readLoop : List ReadResult → RunM (List Nat)
  | [] => (Outcome.hang, [])
  | r :: rest =>
    bindRun (call Event.readSample r.hr) fun _ =>
    if mediaTypeChangedFlag r.flags then pureRun []
    else if endOfStreamFlag r.flags then pureRun []
    else
      bindRun (call Event.convertToContiguousBuffer r.convertHr) fun _ =>
      bindRun (call Event.lockBuffer r.lockHr) fun _ =>
      bindRun (call Event.unlockBuffer r.unlockHr) fun _ =>
      bindRun (readLoop rest) fun tail =>
      pureRun (r.sampleData ++ tail)

/-- The condition of the source's decompression branch: the native subtype
is neither `MFAudioFormat_Float` nor `MFAudioFormat_PCM`. -/
def needsDecode (env : Env) : Bool :=
  env.subType != Guid.audioFormatFloat && env.subType != Guid.audioFormatPCM

/-- `loadFile` from the source, call for call: create the source reader
from the URL, select only the first audio stream, fetch the native media
type, `assert` it is audio, and if the subtype is compressed set the
reader's current media type to uncompressed PCM; then build the
`WAVEFORMATEX` from the reader's current media type, re-select the stream,
and run the read loop.  After `SetCurrentMediaType(PCM)` the reader's
current type is PCM; otherwise it is the native subtype. -/
def loadFile (file : String) (env : Env) : RunM AudioFile :=
  bindRun (call (Event.createSourceReaderFromURL file) env.createReaderHr) fun _ =>
  bindRun (call (Event.setStreamSelection true false) env.deselectAllHr) fun _ =>
  bindRun (call (Event.setStreamSelection false true) env.selectStreamHr) fun _ =>
  bindRun (call Event.getNativeMediaType env.nativeTypeHr) fun _ =>
  bindRun (call Event.getGUIDMajorType env.majorTypeHr) fun _ =>
  bindRun (assertCheck (env.majorType == Guid.mediaTypeAudio)) fun _ =>
  bindRun (call Event.getGUIDSubType env.subTypeHr) fun _ =>
  bindRun
    (if needsDecode env then
      bindRun (call Event.mfCreateMediaType env.createTypeHr) fun _ =>
      bindRun (call Event.setGUIDMajorType env.setMajorHr) fun _ =>
      bindRun (call Event.setGUIDSubType env.setSubHr) fun _ =>
      bindRun (call Event.setCurrentMediaType env.setCurrentHr) fun _ =>
      pureRun Guid.audioFormatPCM
    else pureRun env.subType) fun current =>
  bindRun (call Event.getCurrentMediaType env.getCurrentHr) fun _ =>
  bindRun (call Event.createWaveFormat env.waveFormatHr) fun _ =>
  bindRun (call (Event.setStreamSelection false true) env.selectStream2Hr) fun _ =>
  bindRun (readLoop env.reads) fun data =>
  pureRun { data := data, format := current, formatlength := env.waveFormatLen }

/-- `createVoice` from the source: `CreateSourceVoice` with the file's
format (the asserts on the engine and format pointers hold trivially). -/
def createVoice (env : Env) (_file : AudioFile) : RunM Unit :=
  call Event.createSourceVoice env.createVoiceHr

/-- `2^32`: the range of the `UINT32` field `XAUDIO2_BUFFER::AudioBytes`. -/
def UINT32_MOD : Nat := 4294967296

/-- `playVoice` from the source: `assert(!file.data.empty())`, fill the
buffer descriptor (`AudioBytes = file.data.size()` is a `size_t`-to-
`UINT32` narrowing, hence `% 2^32`; `pAudioData` points at the vector's
bytes), `SubmitSourceBuffer` (checked), `Start()` (result ignored). -/
def playVoice (env : Env) (file : AudioFile) : RunM Unit :=
  bindRun (assertCheck (!file.data.isEmpty)) fun _ =>
  bindRun
    (call (Event.submitSourceBuffer (file.data.length % UINT32_MOD) file.data)
      env.submitHr) fun _ =>
  emitEvent Event.startVoice

/-- The file name `main` passes to `loadFile`. -/
def testFileName : String := "test.mp3"

namespace Xa2

/-- `main` from the source, in its exact order: `initWMF`,
`loadFile("test.mp3")`, `initXAudio2`, `createMasteringVoice`,
`createVoice`, `playVoice`, `Sleep(7000)`, `DestroyVoice`, `MFShutdown`. -/
def main (env : Env) : RunM Unit :=
  bindRun (initWMF env) fun _ =>
  bindRun (loadFile testFileName env) fun audioFile =>
  bindRun (initXAudio2 env) fun _ =>
  bindRun (createMasteringVoice env) fun _ =>
  bindRun (createVoice env audioFile) fun _ =>
  bindRun (playVoice env audioFile) fun _ =>
  bindRun (emitEvent (Event.sleep 7000)) fun _ =>
  bindRun (emitEvent Event.destroyVoice) fun _ =>
  emitEvent Event.mfShutdown

end Xa2

/-! ## Success projections of the run

`loopEvents`/`loopData` are the trace and accumulated bytes of the read
loop when it does not throw, and the `*Trace` functions assemble the trace
of a whole run that does not throw.  Every actual run's trace is a prefix
of `successTrace`, and equals it when the run returns normally. -/

/-- One read response terminates the loop when either terminating flag bit
is set. -/
def stopRead (r : ReadResult) : Bool :=
  mediaTypeChangedFlag r.flags || endOfStreamFlag r.flags

/-- The events of the read loop, assuming no call throws. -/
def loopEvents : List ReadResult → List Event
  | [] => []
  | r :: rest =>
    if stopRead r then [Event.readSample]
    else Event.readSample :: Event.convertToContiguousBuffer :: Event.lockBuffer ::
      Event.unlockBuffer :: loopEvents rest

/-- The bytes the read loop accumulates, assuming no call throws. -/
def loopData : List ReadResult → List Nat
  | [] => []
  | r :: rest => if stopRead r then [] else r.sampleData ++ loopData rest

/-- The audio subtype the reader's current media type has after the
decompression branch: PCM when the native subtype was compressed,
otherwise the native subtype itself. -/
def chosenFormat (env : Env) : Guid :=
  if needsDecode env then Guid.audioFormatPCM else env.subType

/-- The `AudioFile` a non-throwing `loadFile` returns. -/
def fileOf (env : Env) : AudioFile :=
  { data := loopData env.reads, format := chosenFormat env,
    formatlength := env.waveFormatLen }

/-- The events of the decompression branch of `loadFile`: present exactly
when the native subtype is compressed. -/
def decodeEvents (env : Env) : List Event :=
  if needsDecode env then
    [Event.mfCreateMediaType, Event.setGUIDMajorType, Event.setGUIDSubType,
     Event.setCurrentMediaType]
  else []

/-- The events of `loadFile` before the read loop, assuming no throw. -/
def preTrace (file : String) (env : Env) : List Event :=
  [Event.createSourceReaderFromURL file, Event.setStreamSelection true false,
   Event.setStreamSelection false true, Event.getNativeMediaType,
   Event.getGUIDMajorType, Event.getGUIDSubType] ++
  decodeEvents env ++
  [Event.getCurrentMediaType, Event.createWaveFormat,
   Event.setStreamSelection false true]

/-- The events of a non-throwing `loadFile`. -/
def loadTrace (file : String) (env : Env) : List Event :=
  preTrace file env ++ loopEvents env.reads

/-- The events of a non-throwing run of `main` before the read loop. -/
def frontTrace (env : Env) : List Event :=
  [Event.mfStartup, Event.mfCreateAttributes, Event.setLowLatency] ++
  preTrace testFileName env

/-- The events of a non-throwing run of `main` after the read loop. -/
def tailTrace (env : Env) : List Event :=
  [Event.coInitializeEx, Event.xAudio2Create, Event.createMasteringVoice,
   Event.createSourceVoice,
   Event.submitSourceBuffer ((loopData env.reads).length % UINT32_MOD)
     (loopData env.reads),
   Event.startVoice, Event.sleep 7000, Event.destroyVoice, Event.mfShutdown]

/-- The full trace of a run of `main` that returns normally. -/
def successTrace (env : Env) : List Event :=
  frontTrace env ++ (loopEvents env.reads ++ tailTrace env)

/-! ## The `Runs` characterization

`Runs r t a` says: the trace of `r` is a prefix of `t`, and when `r`
returns normally it returns `a` with trace exactly `t`.  It composes
through `bindRun` and holds of every fragment of the program against its
success projection, for every environment. -/

/-- Trace/value characterization of a fragment against its success
projection. -/
def Runs {α : Type} (r : RunM α) (t : List Event) (a0 : α) : Prop :=
  r.2 <+: t ∧ ∀ b, r.1 = Outcome.ok b → b = a0 ∧ r.2 = t

theorem bindRun_of_ok {α β : Type} {r : RunM α} {f : α → RunM β} {a : α}
    (h : r.1 = Outcome.ok a) : bindRun r f = ((f a).1, r.2 ++ (f a).2) := by
  unfold bindRun; rw [h]

theorem bindRun_of_err {α β : Type} {r : RunM α} {f : α → RunM β} {e : ComError}
    (h : r.1 = Outcome.err e) : bindRun r f = (Outcome.err e, r.2) := by
  unfold bindRun; rw [h]

theorem bindRun_of_aborted {α β : Type} {r : RunM α} {f : α → RunM β}
    (h : r.1 = Outcome.aborted) : bindRun r f = (Outcome.aborted, r.2) := by
  unfold bindRun; rw [h]

theorem bindRun_of_hang {α β : Type} {r : RunM α} {f : α → RunM β}
    (h : r.1 = Outcome.hang) : bindRun r f = (Outcome.hang, r.2) := by
  unfold bindRun; rw [h]

theorem runs_call (e : Event) (hr : Int) : Runs (call e hr) [e] () := by
  unfold Runs call
  rcases h : throwOnFail hr with er | u <;>
    simp

theorem runs_emit (e : Event) : Runs (emitEvent e) [e] () := by
  simp [Runs, emitEvent]

theorem runs_assert (b : Bool) : Runs (assertCheck b) [] () := by
  unfold Runs assertCheck
  rcases b <;> simp

theorem runs_pure {α : Type} (a : α) : Runs (pureRun a) [] a := by
  simp [Runs, pureRun]

theorem runs_bind {α β : Type} {r : RunM α} {f : α → RunM β}
    {tA tB : List Event} {a0 : α} {b0 : β}
    (hA : Runs r tA a0) (hB : Runs (f a0) tB b0) :
    Runs (bindRun r f) (tA ++ tB) b0 := by
  obtain ⟨hpre, hok⟩ := hA
  obtain ⟨hpreB, hokB⟩ := hB
  unfold Runs
  rcases h1 : r.1 with a | e | _ | _
  · obtain ⟨ha, htr⟩ := hok a h1
    subst ha
    rw [bindRun_of_ok h1]
    refine ⟨?_, ?_⟩
    · obtain ⟨t, ht⟩ := hpreB
      exact ⟨t, by simp [htr, ← ht]⟩
    · intro b hb
      simp only at hb
      obtain ⟨rfl, htrB⟩ := hokB b hb
      exact ⟨rfl, by simp [htr, htrB]⟩
  · rw [bindRun_of_err h1]
    refine ⟨?_, by intro b hb; simp at hb⟩
    obtain ⟨t, ht⟩ := hpre
    exact ⟨t ++ tB, by simp [← ht]⟩
  · rw [bindRun_of_aborted h1]
    refine ⟨?_, by intro b hb; simp at hb⟩
    obtain ⟨t, ht⟩ := hpre
    exact ⟨t ++ tB, by simp [← ht]⟩
  · rw [bindRun_of_hang h1]
    refine ⟨?_, by intro b hb; simp at hb⟩
    obtain ⟨t, ht⟩ := hpre
    exact ⟨t ++ tB, by simp [← ht]⟩

theorem runs_readLoop (reads : List ReadResult) :
    Runs (readLoop reads) (loopEvents reads) (loopData reads) := by
  induction reads with
  | nil => simp [Runs, readLoop, loopEvents, loopData]
  | cons r rest ih =>
    by_cases hm : mediaTypeChangedFlag r.flags
    · have hs : stopRead r = true := by simp [stopRead, hm]
      simp only [readLoop, loopEvents, loopData, hm, if_true, hs]
      exact runs_bind (runs_call Event.readSample r.hr) (runs_pure [])
    · simp only [Bool.not_eq_true] at hm
      by_cases he : endOfStreamFlag r.flags
      · have hs : stopRead r = true := by simp [stopRead, he]
        simp only [readLoop, loopEvents, loopData, hm, he, Bool.false_eq_true, if_false,
          if_true, hs]
        exact runs_bind (runs_call Event.readSample r.hr) (runs_pure [])
      · simp only [Bool.not_eq_true] at he
        have hs : stopRead r = false := by simp [stopRead, hm, he]
        simp only [readLoop, loopEvents, loopData, hm, he, Bool.false_eq_true, if_false, hs]
        rw [show (Event.readSample :: Event.convertToContiguousBuffer :: Event.lockBuffer ::
              Event.unlockBuffer :: loopEvents rest)
            = [Event.readSample] ++ ([Event.convertToContiguousBuffer] ++ ([Event.lockBuffer] ++
              ([Event.unlockBuffer] ++ (loopEvents rest ++ [])))) from by simp]
        exact runs_bind (runs_call Event.readSample r.hr)
          (runs_bind (runs_call Event.convertToContiguousBuffer r.convertHr)
            (runs_bind (runs_call Event.lockBuffer r.lockHr)
              (runs_bind (runs_call Event.unlockBuffer r.unlockHr)
                (runs_bind ih (runs_pure (r.sampleData ++ loopData rest))))))

theorem runs_initWMF (env : Env) :
    Runs (initWMF env)
      [Event.mfStartup, Event.mfCreateAttributes, Event.setLowLatency] () :=
  runs_bind (runs_call Event.mfStartup env.mfStartupHr)
    (runs_bind (runs_call Event.mfCreateAttributes env.createAttrHr)
      (runs_call Event.setLowLatency env.setLowLatencyHr))

theorem runs_initXAudio2 (env : Env) :
    Runs (initXAudio2 env) [Event.coInitializeEx, Event.xAudio2Create] () :=
  runs_bind (runs_call Event.coInitializeEx env.coInitHr)
    (runs_call Event.xAudio2Create env.xa2CreateHr)

theorem runs_createMasteringVoice (env : Env) :
    Runs (createMasteringVoice env) [Event.createMasteringVoice] () :=
  runs_call Event.createMasteringVoice env.masteringHr

theorem runs_createVoice (env : Env) (file : AudioFile) :
    Runs (createVoice env file) [Event.createSourceVoice] () :=
  runs_call Event.createSourceVoice env.createVoiceHr

theorem runs_playVoice (env : Env) (file : AudioFile) :
    Runs (playVoice env file)
      [Event.submitSourceBuffer (file.data.length % UINT32_MOD) file.data,
       Event.startVoice] () :=
  runs_bind (runs_assert (!file.data.isEmpty))
    (runs_bind
      (runs_call (Event.submitSourceBuffer (file.data.length % UINT32_MOD) file.data)
        env.submitHr)
      (runs_emit Event.startVoice))

theorem runs_decodeBranch (env : Env) :
    Runs
      (if needsDecode env then
        bindRun (call Event.mfCreateMediaType env.createTypeHr) fun _ =>
        bindRun (call Event.setGUIDMajorType env.setMajorHr) fun _ =>
        bindRun (call Event.setGUIDSubType env.setSubHr) fun _ =>
        bindRun (call Event.setCurrentMediaType env.setCurrentHr) fun _ =>
        pureRun Guid.audioFormatPCM
      else pureRun env.subType)
      (decodeEvents env) (chosenFormat env) := by
  by_cases hd : needsDecode env
  · simp only [decodeEvents, chosenFormat, hd, if_true]
    exact runs_bind (runs_call Event.mfCreateMediaType env.createTypeHr)
      (runs_bind (runs_call Event.setGUIDMajorType env.setMajorHr)
        (runs_bind (runs_call Event.setGUIDSubType env.setSubHr)
          (runs_bind (runs_call Event.setCurrentMediaType env.setCurrentHr)
            (runs_pure Guid.audioFormatPCM))))
  · simp only [Bool.not_eq_true] at hd
    simp only [decodeEvents, chosenFormat, hd, Bool.false_eq_true, if_false]
    exact runs_pure env.subType

theorem runs_loadFile (file : String) (env : Env) :
    Runs (loadFile file env) (loadTrace file env) (fileOf env) := by
  rw [show loadTrace file env
      = [Event.createSourceReaderFromURL file] ++
        ([Event.setStreamSelection true false] ++
         ([Event.setStreamSelection false true] ++
          ([Event.getNativeMediaType] ++
           ([Event.getGUIDMajorType] ++
            ([] ++
             ([Event.getGUIDSubType] ++
              (decodeEvents env ++
               ([Event.getCurrentMediaType] ++
                ([Event.createWaveFormat] ++
                 ([Event.setStreamSelection false true] ++
                  (loopEvents env.reads ++ []))))))))))) from by
    simp [loadTrace, preTrace]]
  exact runs_bind (runs_call (Event.createSourceReaderFromURL file) env.createReaderHr)
    (runs_bind (runs_call (Event.setStreamSelection true false) env.deselectAllHr)
      (runs_bind (runs_call (Event.setStreamSelection false true) env.selectStreamHr)
        (runs_bind (runs_call Event.getNativeMediaType env.nativeTypeHr)
          (runs_bind (runs_call Event.getGUIDMajorType env.majorTypeHr)
            (runs_bind (runs_assert (env.majorType == Guid.mediaTypeAudio))
              (runs_bind (runs_call Event.getGUIDSubType env.subTypeHr)
                (runs_bind (runs_decodeBranch env)
                  (runs_bind (runs_call Event.getCurrentMediaType env.getCurrentHr)
                    (runs_bind (runs_call Event.createWaveFormat env.waveFormatHr)
                      (runs_bind
                        (runs_call (Event.setStreamSelection false true) env.selectStream2Hr)
                        (runs_bind (runs_readLoop env.reads)
                          (runs_pure
                            (AudioFile.mk (loopData env.reads) (chosenFormat env)
                              env.waveFormatLen)))))))))))))

theorem runs_main (env : Env) :
    Runs (Xa2.main env) (successTrace env) () := by
  rw [show successTrace env
      = [Event.mfStartup, Event.mfCreateAttributes, Event.setLowLatency] ++
        (loadTrace testFileName env ++
         ([Event.coInitializeEx, Event.xAudio2Create] ++
          ([Event.createMasteringVoice] ++
           ([Event.createSourceVoice] ++
            ([Event.submitSourceBuffer ((fileOf env).data.length % UINT32_MOD)
                (fileOf env).data, Event.startVoice] ++
             ([Event.sleep 7000] ++
              ([Event.destroyVoice] ++ [Event.mfShutdown]))))))) from by
    simp [successTrace, frontTrace, tailTrace, loadTrace, fileOf]]
  exact runs_bind (runs_initWMF env)
    (runs_bind (runs_loadFile testFileName env)
      (runs_bind (runs_initXAudio2 env)
        (runs_bind (runs_createMasteringVoice env)
          (runs_bind (runs_createVoice env (fileOf env))
            (runs_bind (runs_playVoice env (fileOf env))
              (runs_bind (runs_emit (Event.sleep 7000))
                (runs_bind (runs_emit Event.destroyVoice)
                  (runs_emit Event.mfShutdown))))))))

/-- Every run's trace, throwing or not, is a prefix of the success trace. -/
theorem main_trace_pre (env : Env) : (Xa2.main env).2 <+: successTrace env :=
  (runs_main env).1

/-- A run that returns normally performed exactly the success trace. -/
theorem main_ok_trace (env : Env) (h : (Xa2.main env).1 = Outcome.ok ()) :
    (Xa2.main env).2 = successTrace env :=
  ((runs_main env).2 () h).2

/-- Every `loadFile` trace is a prefix of `loadTrace`. -/
theorem loadFile_trace_pre (file : String) (env : Env) :
    (loadFile file env).2 <+: loadTrace file env :=
  (runs_loadFile file env).1

/-- A `loadFile` that returns normally returns `fileOf env` with trace
exactly `loadTrace`. -/
theorem loadFile_ok (file : String) (env : Env) (f : AudioFile)
    (h : (loadFile file env).1 = Outcome.ok f) :
    f = fileOf env ∧ (loadFile file env).2 = loadTrace file env :=
  (runs_loadFile file env).2 f h

/-! ## Ordering of events in a trace

`allBefore p q tr` holds when no `p`-event occurs after a `q`-event in
`tr`: every operation matched by `p` happens before every operation
matched by `q`.  It is closed under prefixes, so facts proved for
`successTrace` transfer to every actual run. -/

/-- Scan of the trace; `seen` records whether a `q`-event occurred. -/
def ordOk (p q : Event → Bool) : Bool → List Event → Bool
  | _, [] => true
  | seen, e :: tr => !(seen && p e) && ordOk p q (seen || q e) tr

/-- Every `p`-event occurs before every `q`-event. -/
def allBefore (p q : Event → Bool) (tr : List Event) : Bool := ordOk p q false tr

theorem ordOk_append (p q : Event → Bool) (s : Bool) (A B : List Event) :
    ordOk p q s (A ++ B) = (ordOk p q s A && ordOk p q (s || A.any q) B) := by
  induction A generalizing s with
  | nil => simp [ordOk]
  | cons e A ih => simp [ordOk, ih, Bool.or_assoc, Bool.and_assoc]

theorem ordOk_of_no_p (p q : Event → Bool) (A : List Event) :
    ∀ s, (∀ e ∈ A, p e = false) → ordOk p q s A = true := by
  induction A with
  | nil => intro s h; rfl
  | cons e A ih =>
    intro s h
    have he := h e (List.mem_cons_self e A)
    simp only [ordOk, he, Bool.and_false, Bool.not_false, Bool.true_and]
    exact ih (s || q e) fun x hx => h x (List.mem_cons_of_mem e hx)

theorem ordOk_of_no_q (p q : Event → Bool) (A : List Event) :
    (∀ e ∈ A, q e = false) → ordOk p q false A = true := by
  induction A with
  | nil => intro h; rfl
  | cons e A ih =>
    intro h
    have he := h e (List.mem_cons_self e A)
    simp only [ordOk, he, Bool.false_and, Bool.not_false, Bool.true_and, Bool.or_false]
    exact ih fun x hx => h x (List.mem_cons_of_mem e hx)

theorem any_eq_false_of_all_false {q : Event → Bool} {A : List Event}
    (h : ∀ e ∈ A, q e = false) : A.any q = false := by
  simp only [List.any_eq_false]
  intro x hx
  simp [h x hx]

theorem allBefore_mono {p q : Event → Bool} {A B : List Event}
    (hpre : A <+: B) (h : allBefore p q B = true) : allBefore p q A = true := by
  obtain ⟨t, rfl⟩ := hpre
  rw [allBefore, ordOk_append, Bool.and_eq_true] at h
  exact h.1

/-! ## Classification of events -/

/-- Decoding work: the read loop's `ReadSample` calls. -/
def isDecodeRead : Event → Bool
  | Event.readSample => true
  | _ => false

/-- Audio-engine initialization: `CoInitializeEx` / `XAudio2Create`. -/
def isEngineInit : Event → Bool
  | Event.coInitializeEx => true
  | Event.xAudio2Create => true
  | _ => false

/-- Creation of the mastering voice. -/
def isMasteringCreate : Event → Bool
  | Event.createMasteringVoice => true
  | _ => false

/-- Creation of the source voice. -/
def isSourceVoiceCreate : Event → Bool
  | Event.createSourceVoice => true
  | _ => false

/-- Submission of a buffer to the source voice. -/
def isSubmit : Event → Bool
  | Event.submitSourceBuffer _ _ => true
  | _ => false

/-- `voice->Start()`. -/
def isStart : Event → Bool
  | Event.startVoice => true
  | _ => false

/-- `SetCurrentMediaType` on the source reader. -/
def isSetCurrentType : Event → Bool
  | Event.setCurrentMediaType => true
  | _ => false

/-- The `Sleep` call. -/
def isSleep : Event → Bool
  | Event.sleep _ => true
  | _ => false

/-- The only call that touches the file system: creating the source
reader from a URL (it opens the named file for reading). -/
def isFileAccess : Event → Bool
  | Event.createSourceReaderFromURL _ => true
  | _ => false

/-! ## What each segment of the trace contains -/

theorem loopEvents_mem (reads : List ReadResult) :
    ∀ e ∈ loopEvents reads,
      e = Event.readSample ∨ e = Event.convertToContiguousBuffer ∨
      e = Event.lockBuffer ∨ e = Event.unlockBuffer := by
  induction reads with
  | nil => intro e he; simp [loopEvents] at he
  | cons r rest ih =>
    intro e he
    by_cases hs : stopRead r
    · simp [loopEvents, hs] at he
      simp [he]
    · simp only [Bool.not_eq_true] at hs
      simp only [loopEvents, hs, Bool.false_eq_true, if_false, List.mem_cons] at he
      rcases he with rfl | rfl | rfl | rfl | he
      · simp
      · simp
      · simp
      · simp
      · exact ih e he

theorem mem_frontTrace {e : Event} {env : Env} (h : e ∈ frontTrace env) :
    e = Event.mfStartup ∨ e = Event.mfCreateAttributes ∨ e = Event.setLowLatency ∨
    e = Event.createSourceReaderFromURL testFileName ∨
    e = Event.setStreamSelection true false ∨ e = Event.setStreamSelection false true ∨
    e = Event.getNativeMediaType ∨ e = Event.getGUIDMajorType ∨
    e = Event.getGUIDSubType ∨ e = Event.mfCreateMediaType ∨
    e = Event.setGUIDMajorType ∨ e = Event.setGUIDSubType ∨
    e = Event.setCurrentMediaType ∨ e = Event.getCurrentMediaType ∨
    e = Event.createWaveFormat := by
  by_cases hd : needsDecode env <;>
    [skip; simp only [Bool.not_eq_true] at hd] <;>
    · simp [frontTrace, preTrace, decodeEvents, hd] at h
      tauto

theorem mem_tailTrace {e : Event} {env : Env} (h : e ∈ tailTrace env) :
    e = Event.coInitializeEx ∨ e = Event.xAudio2Create ∨
    e = Event.createMasteringVoice ∨ e = Event.createSourceVoice ∨
    e = Event.submitSourceBuffer ((loopData env.reads).length % UINT32_MOD)
      (loopData env.reads) ∨
    e = Event.startVoice ∨ e = Event.sleep 7000 ∨ e = Event.destroyVoice ∨
    e = Event.mfShutdown := by
  simp [tailTrace] at h
  tauto

theorem mem_preTrace {e : Event} {file : String} {env : Env}
    (h : e ∈ preTrace file env) :
    e = Event.createSourceReaderFromURL file ∨
    e = Event.setStreamSelection true false ∨ e = Event.setStreamSelection false true ∨
    e = Event.getNativeMediaType ∨ e = Event.getGUIDMajorType ∨
    e = Event.getGUIDSubType ∨ e = Event.mfCreateMediaType ∨
    e = Event.setGUIDMajorType ∨ e = Event.setGUIDSubType ∨
    e = Event.setCurrentMediaType ∨ e = Event.getCurrentMediaType ∨
    e = Event.createWaveFormat := by
  by_cases hd : needsDecode env <;>
    [skip; simp only [Bool.not_eq_true] at hd] <;>
    · simp [preTrace, decodeEvents, hd] at h
      tauto

/-! ## Thrown errors always carry a failing HRESULT -/

/-- Every `_com_error` a fragment throws carries an HRESULT whose failure
bit is set (the program throws only through `throwOnFail`). -/
def ErrsFailed {α : Type} (r : RunM α) : Prop :=
  ∀ e, r.1 = Outcome.err e → FAILED e.hr = true

theorem call_eq_of_failed {hr : Int} (ev : Event) (h : FAILED hr = true) :
    call ev hr = (Outcome.err ⟨hr⟩, [ev]) := by
  unfold call throwOnFail
  rw [h]
  simp

theorem call_eq_of_ok {hr : Int} (ev : Event) (h : FAILED hr = false) :
    call ev hr = (Outcome.ok (), [ev]) := by
  unfold call throwOnFail
  rw [h]
  simp

theorem errs_call (ev : Event) (hr : Int) : ErrsFailed (call ev hr) := by
  intro e he
  by_cases h : FAILED hr
  · rw [call_eq_of_failed ev h] at he
    cases he
    exact h
  · simp only [Bool.not_eq_true] at h
    rw [call_eq_of_ok ev h] at he
    simp at he

theorem errs_pure {α : Type} (a : α) : ErrsFailed (pureRun a) := by
  intro e he; simp [pureRun] at he

theorem errs_emit (ev : Event) : ErrsFailed (emitEvent ev) := by
  intro e he; simp [emitEvent] at he

theorem errs_assert (b : Bool) : ErrsFailed (assertCheck b) := by
  intro e he
  unfold assertCheck at he
  rcases b <;> simp at he

theorem errs_bind {α β : Type} {r : RunM α} {f : α → RunM β}
    (h1 : ErrsFailed r) (h2 : ∀ a, ErrsFailed (f a)) : ErrsFailed (bindRun r f) := by
  intro e he
  rcases hr1 : r.1 with a | e1 | _ | _
  · rw [bindRun_of_ok hr1] at he
    exact h2 a e he
  · rw [bindRun_of_err hr1] at he
    have h3 : e1 = e := by injection he
    subst h3
    exact h1 _ hr1
  · rw [bindRun_of_aborted hr1] at he
    simp at he
  · rw [bindRun_of_hang hr1] at he
    simp at he

theorem errs_readLoop (reads : List ReadResult) : ErrsFailed (readLoop reads) := by
  induction reads with
  | nil => intro e he; simp [readLoop] at he
  | cons r rest ih =>
    unfold readLoop
    refine errs_bind (errs_call _ _) fun _ => ?_
    by_cases hm : mediaTypeChangedFlag r.flags
    · simp only [hm, if_true]
      exact errs_pure []
    · simp only [Bool.not_eq_true] at hm
      simp only [hm, Bool.false_eq_true, if_false]
      by_cases he2 : endOfStreamFlag r.flags
      · simp only [he2, if_true]
        exact errs_pure []
      · simp only [Bool.not_eq_true] at he2
        simp only [he2, Bool.false_eq_true, if_false]
        exact errs_bind (errs_call _ _) fun _ =>
          errs_bind (errs_call _ _) fun _ =>
          errs_bind (errs_call _ _) fun _ =>
          errs_bind ih fun tail => errs_pure (r.sampleData ++ tail)

theorem errs_loadFile (file : String) (env : Env) : ErrsFailed (loadFile file env) := by
  unfold loadFile
  refine errs_bind (errs_call _ _) fun _ => ?_
  refine errs_bind (errs_call _ _) fun _ => ?_
  refine errs_bind (errs_call _ _) fun _ => ?_
  refine errs_bind (errs_call _ _) fun _ => ?_
  refine errs_bind (errs_call _ _) fun _ => ?_
  refine errs_bind (errs_assert _) fun _ => ?_
  refine errs_bind (errs_call _ _) fun _ => ?_
  refine errs_bind ?_ fun current => ?_
  · by_cases hd : needsDecode env
    · simp only [hd, if_true]
      exact errs_bind (errs_call _ _) fun _ =>
        errs_bind (errs_call _ _) fun _ =>
        errs_bind (errs_call _ _) fun _ =>
        errs_bind (errs_call _ _) fun _ => errs_pure _
    · simp only [Bool.not_eq_true] at hd
      simp only [hd, Bool.false_eq_true, if_false]
      exact errs_pure _
  refine errs_bind (errs_call _ _) fun _ => ?_
  refine errs_bind (errs_call _ _) fun _ => ?_
  refine errs_bind (errs_call _ _) fun _ => ?_
  exact errs_bind (errs_readLoop env.reads) fun data => errs_pure _

theorem errs_main (env : Env) : ErrsFailed (Xa2.main env) := by
  unfold Xa2.main
  refine errs_bind ?_ fun _ => ?_
  · unfold initWMF
    exact errs_bind (errs_call _ _) fun _ =>
      errs_bind (errs_call _ _) fun _ => errs_call _ _
  refine errs_bind (errs_loadFile _ _) fun audioFile => ?_
  refine errs_bind ?_ fun _ => ?_
  · unfold initXAudio2
    exact errs_bind (errs_call _ _) fun _ => errs_call _ _
  refine errs_bind (errs_call _ _) fun _ => ?_
  refine errs_bind (errs_call _ _) fun _ => ?_
  refine errs_bind ?_ fun _ => ?_
  · unfold playVoice
    exact errs_bind (errs_assert _) fun _ =>
      errs_bind (errs_call _ _) fun _ => errs_emit _
  exact errs_bind (errs_emit _) fun _ =>
    errs_bind (errs_emit _) fun _ => errs_emit _

/-! ## Concrete environments for witnesses and counterexamples -/

/-- A successful data-carrying read response: three sample bytes. -/
def okRead1 : ReadResult := ⟨0, 0, 0, 0, 0, [1, 2, 3]⟩

/-- A successful end-of-stream read response. -/
def okReadEOS : ReadResult := ⟨0, ENDOFSTREAM_FLAG, 0, 0, 0, []⟩

/-- A read response reporting a current-media-type change. -/
def okReadMTC : ReadResult := ⟨0, MEDIATYPECHANGED_FLAG, 0, 0, 0, []⟩

/-- An environment in which every call succeeds: an audio file with a
compressed (mp3-like) native subtype, one data sample, then end of
stream. -/
def okEnv : Env :=
  { coInitHr := 0, xa2CreateHr := 0, masteringHr := 0, mfStartupHr := 0,
    createAttrHr := 0, setLowLatencyHr := 0, createReaderHr := 0,
    deselectAllHr := 0, selectStreamHr := 0, nativeTypeHr := 0,
    majorTypeHr := 0, majorType := Guid.mediaTypeAudio, subTypeHr := 0,
    subType := Guid.other 0, createTypeHr := 0, setMajorHr := 0,
    setSubHr := 0, setCurrentHr := 0, getCurrentHr := 0, waveFormatHr := 0,
    waveFormatLen := 18, selectStream2Hr := 0, reads := [okRead1, okReadEOS],
    createVoiceHr := 0, submitHr := 0 }

/-- `okEnv` with `MFStartup` failing. -/
def errEnv : Env := { okEnv with mfStartupHr := -5 }

/-- `okEnv` with an already-uncompressed (Float) native subtype. -/
def floatEnv : Env := { okEnv with subType := Guid.audioFormatFloat }

/-- `okEnv` with a media-type change reported mid-stream. -/
def mtcEnv : Env := { okEnv with reads := [okRead1, okReadMTC] }

/-! ## Inverting a normal return -/

theorem bindRun_ok_inv {α β : Type} {r : RunM α} {f : α → RunM β} {b : β}
    (h : (bindRun r f).1 = Outcome.ok b) :
    ∃ a, r.1 = Outcome.ok a ∧ (f a).1 = Outcome.ok b := by
  rcases hr1 : r.1 with a | e | _ | _
  · rw [bindRun_of_ok hr1] at h
    exact ⟨a, rfl, h⟩
  · rw [bindRun_of_err hr1] at h
    simp at h
  · rw [bindRun_of_aborted hr1] at h
    simp at h
  · rw [bindRun_of_hang hr1] at h
    simp at h

theorem main_ok_loadFile_ok {env : Env} (h : (Xa2.main env).1 = Outcome.ok ()) :
    (loadFile testFileName env).1 = Outcome.ok (fileOf env) := by
  unfold Xa2.main at h
  obtain ⟨-, -, h⟩ := bindRun_ok_inv h
  obtain ⟨f, h3, -⟩ := bindRun_ok_inv h
  obtain ⟨hf, -⟩ := loadFile_ok testFileName env f h3
  rw [← hf]
  exact h3

theorem loadFile_ok_readLoop_ok {file : String} {env : Env} {f : AudioFile}
    (h : (loadFile file env).1 = Outcome.ok f) :
    (readLoop env.reads).1 = Outcome.ok (loopData env.reads) := by
  unfold loadFile at h
  obtain ⟨-, -, h⟩ := bindRun_ok_inv h
  obtain ⟨-, -, h⟩ := bindRun_ok_inv h
  obtain ⟨-, -, h⟩ := bindRun_ok_inv h
  obtain ⟨-, -, h⟩ := bindRun_ok_inv h
  obtain ⟨-, -, h⟩ := bindRun_ok_inv h
  obtain ⟨-, -, h⟩ := bindRun_ok_inv h
  obtain ⟨-, -, h⟩ := bindRun_ok_inv h
  obtain ⟨cur, -, h⟩ := bindRun_ok_inv h
  obtain ⟨-, -, h⟩ := bindRun_ok_inv h
  obtain ⟨-, -, h⟩ := bindRun_ok_inv h
  obtain ⟨-, -, h⟩ := bindRun_ok_inv h
  obtain ⟨d, hd, -⟩ := bindRun_ok_inv h
  obtain ⟨rfl, -⟩ := (runs_readLoop env.reads).2 d hd
  exact hd

theorem readLoop_ok_any_read {reads : List ReadResult} {d : List Nat}
    (h : (readLoop reads).1 = Outcome.ok d) :
    (loopEvents reads).any isDecodeRead = true := by
  cases reads with
  | nil => simp [readLoop] at h
  | cons r rest =>
    by_cases hs : stopRead r
    · simp [loopEvents, hs, isDecodeRead]
    · simp only [Bool.not_eq_true] at hs
      simp [loopEvents, hs, isDecodeRead]

theorem readLoop_count (reads : List ReadResult) :
    ∀ d, (readLoop reads).1 = Outcome.ok d →
      (loopEvents reads).countP isDecodeRead
        = (reads.takeWhile fun r => !stopRead r).length + 1 := by
  induction reads with
  | nil => intro d h; simp [readLoop] at h
  | cons r rest ih =>
    intro d h
    by_cases hs : stopRead r
    · simp [loopEvents, hs, List.takeWhile_cons, List.countP_cons, isDecodeRead,
        List.countP_nil]
    · have hs' : stopRead r = false := by simpa using hs
      have hflags : mediaTypeChangedFlag r.flags = false ∧ endOfStreamFlag r.flags = false := by
        constructor <;> [skip; skip] <;>
          · revert hs'
            unfold stopRead
            cases hm : mediaTypeChangedFlag r.flags <;> cases he : endOfStreamFlag r.flags <;>
              simp
      unfold readLoop at h
      obtain ⟨-, -, h⟩ := bindRun_ok_inv h
      rw [hflags.1] at h
      simp only [Bool.false_eq_true, if_false] at h
      rw [hflags.2] at h
      simp only [Bool.false_eq_true, if_false] at h
      obtain ⟨-, -, h⟩ := bindRun_ok_inv h
      obtain ⟨-, -, h⟩ := bindRun_ok_inv h
      obtain ⟨-, -, h⟩ := bindRun_ok_inv h
      obtain ⟨tail, htail, -⟩ := bindRun_ok_inv h
      have hrec := ih tail htail
      simp [loopEvents, hs', List.takeWhile_cons, List.countP_cons, isDecodeRead, hrec]

theorem loopData_eq_takeWhile (reads : List ReadResult) :
    loopData reads
      = ((reads.takeWhile fun r => !stopRead r).map ReadResult.sampleData).flatten := by
  induction reads with
  | nil => simp [loopData]
  | cons r rest ih =>
    by_cases hs : stopRead r
    · simp [loopData, hs, List.takeWhile_cons]
    · have hs' : stopRead r = false := by simpa using hs
      simp [loopData, hs', List.takeWhile_cons, ih]

/-! ## Ordering facts about the success trace -/

theorem front_safe (env : Env) : ∀ e ∈ frontTrace env,
    isEngineInit e = false ∧ isMasteringCreate e = false ∧
    isSourceVoiceCreate e = false ∧ isSubmit e = false ∧ isStart e = false ∧
    isSleep e = false := by
  intro e he
  rcases mem_frontTrace he with
    rfl | rfl | rfl | rfl | rfl | rfl | rfl | rfl | rfl | rfl | rfl | rfl | rfl | rfl | rfl <;>
    exact ⟨rfl, rfl, rfl, rfl, rfl, rfl⟩

theorem loop_safe (reads : List ReadResult) : ∀ e ∈ loopEvents reads,
    isEngineInit e = false ∧ isMasteringCreate e = false ∧
    isSourceVoiceCreate e = false ∧ isSubmit e = false ∧ isStart e = false ∧
    isSleep e = false ∧ isSetCurrentType e = false ∧ isFileAccess e = false := by
  intro e he
  rcases loopEvents_mem reads e he with rfl | rfl | rfl | rfl <;>
    exact ⟨rfl, rfl, rfl, rfl, rfl, rfl, rfl, rfl⟩

theorem pre_safe (file : String) (env : Env) : ∀ e ∈ preTrace file env,
    isDecodeRead e = false := by
  intro e he
  rcases mem_preTrace he with
    rfl | rfl | rfl | rfl | rfl | rfl | rfl | rfl | rfl | rfl | rfl | rfl <;> rfl

theorem tail_safe (env : Env) : ∀ e ∈ tailTrace env,
    isDecodeRead e = false ∧ isSetCurrentType e = false := by
  intro e he
  rcases mem_tailTrace he with rfl | rfl | rfl | rfl | rfl | rfl | rfl | rfl | rfl <;>
    exact ⟨rfl, rfl⟩

/-- An `allBefore` fact for the success trace follows from: no `q`-event
in the front segment, none in the read loop, and the scan succeeding on
the tail segment. -/
theorem allBefore_successTrace {p q : Event → Bool} (env : Env)
    (hfq : ∀ e ∈ frontTrace env, q e = false)
    (hlq : ∀ e ∈ loopEvents env.reads, q e = false)
    (ht : ordOk p q false (tailTrace env) = true) :
    allBefore p q (successTrace env) = true := by
  unfold allBefore successTrace
  rw [ordOk_append, ordOk_append,
    ordOk_of_no_q p q (frontTrace env) hfq,
    any_eq_false_of_all_false hfq]
  simp only [Bool.false_or, Bool.true_and]
  rw [ordOk_of_no_q p q (loopEvents env.reads) hlq,
    any_eq_false_of_all_false hlq]
  simp only [Bool.false_or, Bool.true_and]
  exact ht

theorem ord_decode_engine (env : Env) :
    allBefore isDecodeRead isEngineInit (successTrace env) = true :=
  allBefore_successTrace env
    (fun e he => (front_safe env e he).1)
    (fun e he => (loop_safe env.reads e he).1)
    (ordOk_of_no_p _ _ _ false fun e he => (tail_safe env e he).1)

theorem ord_engine_mastering (env : Env) :
    allBefore isEngineInit isMasteringCreate (successTrace env) = true :=
  allBefore_successTrace env
    (fun e he => (front_safe env e he).2.1)
    (fun e he => (loop_safe env.reads e he).2.1)
    (by simp [tailTrace, ordOk, isEngineInit, isMasteringCreate])

theorem ord_mastering_sourceVoice (env : Env) :
    allBefore isMasteringCreate isSourceVoiceCreate (successTrace env) = true :=
  allBefore_successTrace env
    (fun e he => (front_safe env e he).2.2.1)
    (fun e he => (loop_safe env.reads e he).2.2.1)
    (by simp [tailTrace, ordOk, isMasteringCreate, isSourceVoiceCreate])

theorem ord_sourceVoice_submit (env : Env) :
    allBefore isSourceVoiceCreate isSubmit (successTrace env) = true :=
  allBefore_successTrace env
    (fun e he => (front_safe env e he).2.2.2.1)
    (fun e he => (loop_safe env.reads e he).2.2.2.1)
    (by simp [tailTrace, ordOk, isSourceVoiceCreate, isSubmit])

theorem ord_read_submit (env : Env) :
    allBefore isDecodeRead isSubmit (successTrace env) = true :=
  allBefore_successTrace env
    (fun e he => (front_safe env e he).2.2.2.1)
    (fun e he => (loop_safe env.reads e he).2.2.2.1)
    (ordOk_of_no_p _ _ _ false fun e he => (tail_safe env e he).1)

theorem ord_submit_start (env : Env) :
    allBefore isSubmit isStart (successTrace env) = true :=
  allBefore_successTrace env
    (fun e he => (front_safe env e he).2.2.2.2.1)
    (fun e he => (loop_safe env.reads e he).2.2.2.2.1)
    (by simp [tailTrace, ordOk, isSubmit, isStart])

/-! ## Counting occurrences of a call in a run -/

theorem countP_successTrace_eq (env : Env) (P : Event → Bool)
    (hl : ∀ e ∈ loopEvents env.reads, P e = false) :
    (successTrace env).countP P
      = (frontTrace env).countP P + (tailTrace env).countP P := by
  unfold successTrace
  rw [List.countP_append, List.countP_append,
    show (loopEvents env.reads).countP P = 0 from
      List.countP_eq_zero.mpr fun x hx => by simp [hl x hx]]
  omega

theorem countP_main_le_one (env : Env) (P : Event → Bool)
    (hl : ∀ e ∈ loopEvents env.reads, P e = false)
    (hft : (frontTrace env).countP P + (tailTrace env).countP P ≤ 1) :
    (Xa2.main env).2.countP P ≤ 1 := by
  have h1 := ((main_trace_pre env).sublist).countP_le P
  rw [countP_successTrace_eq env P hl] at h1
  omega

/-! ## C1: order of the five operations -/

/-- The order claimed by the specification: every audio-engine
initialization step before every mastering-voice creation, that before
every decoding read, that before every source-voice creation, that before
every buffer submission — with all five operations present. -/
def claimedOrderC1 (tr : List Event) : Bool :=
  tr.any isEngineInit && tr.any isMasteringCreate && tr.any isDecodeRead &&
  tr.any isSourceVoiceCreate && tr.any isSubmit &&
  allBefore isEngineInit isMasteringCreate tr &&
  allBefore isMasteringCreate isDecodeRead tr &&
  allBefore isDecodeRead isSourceVoiceCreate tr &&
  allBefore isSourceVoiceCreate isSubmit tr

/-- C1, as stated, is false: in an environment in which every platform
call succeeds, the run returns normally yet its operations do not occur
in the claimed order — the program decodes the file before it initializes
the audio engine. -/
theorem C1_claimed_order_counterexample :
    (Xa2.main okEnv).1 = Outcome.ok () ∧ claimedOrderC1 (Xa2.main okEnv).2 = false := by
  constructor
  · decide
  · decide

/-- C1 (amended): the program performs its operations in this order:
decode the compressed media file into raw samples, then initialize the
audio engine, create the mastering voice, create a source voice, and
submit a buffer for playback.  The pairwise ordering holds for every run
(even one that throws part-way), and a run that returns normally performs
all five operations. -/
theorem C1_amended_order (env : Env) :
    (allBefore isDecodeRead isEngineInit (Xa2.main env).2 = true ∧
     allBefore isEngineInit isMasteringCreate (Xa2.main env).2 = true ∧
     allBefore isMasteringCreate isSourceVoiceCreate (Xa2.main env).2 = true ∧
     allBefore isSourceVoiceCreate isSubmit (Xa2.main env).2 = true) ∧
    ((Xa2.main env).1 = Outcome.ok () →
      (Xa2.main env).2.any isDecodeRead = true ∧
      (Xa2.main env).2.any isEngineInit = true ∧
      (Xa2.main env).2.any isMasteringCreate = true ∧
      (Xa2.main env).2.any isSourceVoiceCreate = true ∧
      (Xa2.main env).2.any isSubmit = true) := by
  constructor
  · exact ⟨allBefore_mono (main_trace_pre env) (ord_decode_engine env),
      allBefore_mono (main_trace_pre env) (ord_engine_mastering env),
      allBefore_mono (main_trace_pre env) (ord_mastering_sourceVoice env),
      allBefore_mono (main_trace_pre env) (ord_sourceVoice_submit env)⟩
  · intro h
    have hread : (loopEvents env.reads).any isDecodeRead = true :=
      readLoop_ok_any_read (loadFile_ok_readLoop_ok (main_ok_loadFile_ok h))
    rw [main_ok_trace env h]
    refine ⟨?_, ?_, ?_, ?_, ?_⟩ <;>
      simp [successTrace, tailTrace, isEngineInit, isMasteringCreate,
        isSourceVoiceCreate, isSubmit, isDecodeRead, hread]

/-- Witness for `C1_amended_order` at the concrete all-success
environment. -/
theorem C1_amended_order_witness :
    (Xa2.main okEnv).1 = Outcome.ok () ∧
    ((Xa2.main okEnv).2.any isDecodeRead = true ∧
     (Xa2.main okEnv).2.any isEngineInit = true ∧
     (Xa2.main okEnv).2.any isMasteringCreate = true ∧
     (Xa2.main okEnv).2.any isSourceVoiceCreate = true ∧
     (Xa2.main okEnv).2.any isSubmit = true) :=
  ⟨by decide, (C1_amended_order okEnv).2 (by decide)⟩

/-! ## C2: throw on failure, and nothing else -/

/-- The `MFStartup` call. -/
def isMFStartupEv : Event → Bool
  | Event.mfStartup => true
  | _ => false

/-- The `CoInitializeEx` call. -/
def isCoInit : Event → Bool
  | Event.coInitializeEx => true
  | _ => false

/-- The `XAudio2Create` call. -/
def isXA2Create : Event → Bool
  | Event.xAudio2Create => true
  | _ => false

/-- C2: `throwOnFail hr` throws exactly the `_com_error` carrying `hr`
when `FAILED hr`, and returns silently otherwise; every error a run of
the program ends in carries a failing HRESULT; no call site runs more
than once (no retries), and every run — in particular a throwing one —
performs a prefix of the single straight-line call sequence, so nothing
is caught, recovered or re-attempted after a failure. -/
theorem C2_throw_on_fail (env : Env) (e : ComError) (hr : Int) :
    (throwOnFail hr = Except.error ⟨hr⟩ ↔ FAILED hr = true) ∧
    (throwOnFail hr = Except.ok () ↔ FAILED hr = false) ∧
    ((Xa2.main env).1 = Outcome.err e → FAILED e.hr = true) ∧
    (Xa2.main env).2.countP isMFStartupEv ≤ 1 ∧
    (Xa2.main env).2.countP isCoInit ≤ 1 ∧
    (Xa2.main env).2.countP isXA2Create ≤ 1 ∧
    (Xa2.main env).2.countP isMasteringCreate ≤ 1 ∧
    (Xa2.main env).2.countP isSourceVoiceCreate ≤ 1 ∧
    (Xa2.main env).2.countP isSubmit ≤ 1 ∧
    (Xa2.main env).2 <+: successTrace env := by
  refine ⟨?_, ?_, errs_main env e, ?_, ?_, ?_, ?_, ?_, ?_, main_trace_pre env⟩
  · unfold throwOnFail
    by_cases h : FAILED hr
    · simp [h]
    · simp only [Bool.not_eq_true] at h
      simp [h]
  · unfold throwOnFail
    by_cases h : FAILED hr
    · simp [h]
    · simp only [Bool.not_eq_true] at h
      simp [h]
  · refine countP_main_le_one env isMFStartupEv ?_ ?_
    · intro x hx
      rcases loopEvents_mem env.reads x hx with rfl | rfl | rfl | rfl <;> rfl
    · by_cases hd : needsDecode env
      · simp [frontTrace, preTrace, decodeEvents, tailTrace, hd, isMFStartupEv]
      · simp only [Bool.not_eq_true] at hd
        simp [frontTrace, preTrace, decodeEvents, tailTrace, hd, isMFStartupEv]
  · refine countP_main_le_one env isCoInit ?_ ?_
    · intro x hx
      rcases loopEvents_mem env.reads x hx with rfl | rfl | rfl | rfl <;> rfl
    · by_cases hd : needsDecode env
      · simp [frontTrace, preTrace, decodeEvents, tailTrace, hd, isCoInit]
      · simp only [Bool.not_eq_true] at hd
        simp [frontTrace, preTrace, decodeEvents, tailTrace, hd, isCoInit]
  · refine countP_main_le_one env isXA2Create ?_ ?_
    · intro x hx
      rcases loopEvents_mem env.reads x hx with rfl | rfl | rfl | rfl <;> rfl
    · by_cases hd : needsDecode env
      · simp [frontTrace, preTrace, decodeEvents, tailTrace, hd, isXA2Create]
      · simp only [Bool.not_eq_true] at hd
        simp [frontTrace, preTrace, decodeEvents, tailTrace, hd, isXA2Create]
  · refine countP_main_le_one env isMasteringCreate ?_ ?_
    · intro x hx
      rcases loopEvents_mem env.reads x hx with rfl | rfl | rfl | rfl <;> rfl
    · by_cases hd : needsDecode env
      · simp [frontTrace, preTrace, decodeEvents, tailTrace, hd, isMasteringCreate]
      · simp only [Bool.not_eq_true] at hd
        simp [frontTrace, preTrace, decodeEvents, tailTrace, hd, isMasteringCreate]
  · refine countP_main_le_one env isSourceVoiceCreate ?_ ?_
    · intro x hx
      rcases loopEvents_mem env.reads x hx with rfl | rfl | rfl | rfl <;> rfl
    · by_cases hd : needsDecode env
      · simp [frontTrace, preTrace, decodeEvents, tailTrace, hd, isSourceVoiceCreate]
      · simp only [Bool.not_eq_true] at hd
        simp [frontTrace, preTrace, decodeEvents, tailTrace, hd, isSourceVoiceCreate]
  · refine countP_main_le_one env isSubmit ?_ ?_
    · intro x hx
      rcases loopEvents_mem env.reads x hx with rfl | rfl | rfl | rfl <;> rfl
    · by_cases hd : needsDecode env
      · simp [frontTrace, preTrace, decodeEvents, tailTrace, hd, isSubmit]
      · simp only [Bool.not_eq_true] at hd
        simp [frontTrace, preTrace, decodeEvents, tailTrace, hd, isSubmit]

/-- Witness for `C2_throw_on_fail`: `MFStartup` fails with HRESULT `-5`;
the run throws a `_com_error` carrying `-5`, whose failure bit is set. -/
theorem C2_throw_on_fail_witness :
    (Xa2.main errEnv).1 = Outcome.err ⟨-5⟩ ∧ FAILED (ComError.mk (-5)).hr = true :=
  ⟨by decide, (C2_throw_on_fail errEnv ⟨-5⟩ (-5)).2.2.1 (by decide)⟩

/-! ## C3: one-shot read-and-play -/

/-- C3: the buffering policy is a single one-shot read-and-play.  In every
run every `ReadSample` precedes every `SubmitSourceBuffer` and that
precedes every `Start`; a buffer is submitted at most once and `Start`
is called at most once — exactly once on a run that returns normally.
A `loadFile` that returns normally read the stream once up to the first
terminating flag, accumulating exactly the concatenation of the samples'
bytes, with one `ReadSample` call per response plus the final terminating
one. -/
theorem C3_one_shot (env : Env) (f : AudioFile) :
    (allBefore isDecodeRead isSubmit (Xa2.main env).2 = true ∧
     allBefore isSubmit isStart (Xa2.main env).2 = true ∧
     (Xa2.main env).2.countP isSubmit ≤ 1 ∧
     (Xa2.main env).2.countP isStart ≤ 1) ∧
    ((Xa2.main env).1 = Outcome.ok () →
      (Xa2.main env).2.countP isSubmit = 1 ∧
      (Xa2.main env).2.countP isStart = 1) ∧
    ((loadFile testFileName env).1 = Outcome.ok f →
      f.data
        = ((env.reads.takeWhile fun r => !stopRead r).map ReadResult.sampleData).flatten ∧
      (loadFile testFileName env).2.countP isDecodeRead
        = (env.reads.takeWhile fun r => !stopRead r).length + 1) := by
  have hlsub : ∀ x ∈ loopEvents env.reads, isSubmit x = false := fun x hx =>
    (loop_safe env.reads x hx).2.2.2.1
  have hlstart : ∀ x ∈ loopEvents env.reads, isStart x = false := fun x hx =>
    (loop_safe env.reads x hx).2.2.2.2.1
  have hsubft : (frontTrace env).countP isSubmit + (tailTrace env).countP isSubmit = 1 := by
    by_cases hd : needsDecode env
    · simp [frontTrace, preTrace, decodeEvents, tailTrace, hd, isSubmit]
    · simp only [Bool.not_eq_true] at hd
      simp [frontTrace, preTrace, decodeEvents, tailTrace, hd, isSubmit]
  have hstartft : (frontTrace env).countP isStart + (tailTrace env).countP isStart = 1 := by
    by_cases hd : needsDecode env
    · simp [frontTrace, preTrace, decodeEvents, tailTrace, hd, isStart]
    · simp only [Bool.not_eq_true] at hd
      simp [frontTrace, preTrace, decodeEvents, tailTrace, hd, isStart]
  refine ⟨⟨allBefore_mono (main_trace_pre env) (ord_read_submit env),
      allBefore_mono (main_trace_pre env) (ord_submit_start env),
      countP_main_le_one env isSubmit hlsub (le_of_eq hsubft),
      countP_main_le_one env isStart hlstart (le_of_eq hstartft)⟩, ?_, ?_⟩
  · intro h
    rw [main_ok_trace env h, countP_successTrace_eq env isSubmit hlsub,
      countP_successTrace_eq env isStart hlstart]
    exact ⟨hsubft, hstartft⟩
  · intro h
    obtain ⟨rfl, htr⟩ := loadFile_ok testFileName env f h
    have hloop := loadFile_ok_readLoop_ok h
    constructor
    · exact loopData_eq_takeWhile env.reads
    · rw [htr]
      unfold loadTrace
      rw [List.countP_append,
        show (preTrace testFileName env).countP isDecodeRead = 0 from
          List.countP_eq_zero.mpr fun x hx => by simp [pre_safe testFileName env x hx],
        readLoop_count env.reads (loopData env.reads) hloop]
      omega

/-- Witness for `C3_one_shot` at the concrete all-success environment. -/
theorem C3_one_shot_witness :
    (Xa2.main okEnv).1 = Outcome.ok () ∧
    ((Xa2.main okEnv).2.countP isSubmit = 1 ∧
     (Xa2.main okEnv).2.countP isStart = 1) ∧
    (loadFile testFileName okEnv).1 = Outcome.ok (fileOf okEnv) ∧
    ((fileOf okEnv).data
        = ((okEnv.reads.takeWhile fun r => !stopRead r).map ReadResult.sampleData).flatten ∧
     (loadFile testFileName okEnv).2.countP isDecodeRead
        = (okEnv.reads.takeWhile fun r => !stopRead r).length + 1) :=
  ⟨by decide, (C3_one_shot okEnv (fileOf okEnv)).2.1 (by decide), by decide,
    (C3_one_shot okEnv (fileOf okEnv)).2.2 (by decide)⟩

/-! ## C4: the submitted bytes are the platform reader's bytes -/

/-- C4: all non-trivial work happens inside the platform: on a run that
returns normally, the single buffer `playVoice` submits carries exactly
the bytes the platform source reader's samples produced in `loadFile` —
the concatenation, in read order, of the sample byte ranges up to the
first terminating flag — with no byte added, dropped or changed by the
program. -/
theorem C4_pass_through (env : Env) :
    (Xa2.main env).1 = Outcome.ok () →
      loopData env.reads
        = ((env.reads.takeWhile fun r => !stopRead r).map ReadResult.sampleData).flatten ∧
      Event.submitSourceBuffer ((loopData env.reads).length % UINT32_MOD)
        (loopData env.reads) ∈ (Xa2.main env).2 ∧
      (Xa2.main env).2.countP isSubmit = 1 := by
  intro h
  have hlsub : ∀ x ∈ loopEvents env.reads, isSubmit x = false := fun x hx =>
    (loop_safe env.reads x hx).2.2.2.1
  refine ⟨loopData_eq_takeWhile env.reads, ?_, ?_⟩
  · rw [main_ok_trace env h]
    simp [successTrace, tailTrace]
  · rw [main_ok_trace env h, countP_successTrace_eq env isSubmit hlsub]
    by_cases hd : needsDecode env
    · simp [frontTrace, preTrace, decodeEvents, tailTrace, hd, isSubmit]
    · simp only [Bool.not_eq_true] at hd
      simp [frontTrace, preTrace, decodeEvents, tailTrace, hd, isSubmit]

/-- Witness for `C4_pass_through` at the concrete all-success
environment. -/
theorem C4_pass_through_witness :
    (Xa2.main okEnv).1 = Outcome.ok () ∧
    (loopData okEnv.reads
        = ((okEnv.reads.takeWhile fun r => !stopRead r).map ReadResult.sampleData).flatten ∧
     Event.submitSourceBuffer ((loopData okEnv.reads).length % UINT32_MOD)
        (loopData okEnv.reads) ∈ (Xa2.main okEnv).2 ∧
     (Xa2.main okEnv).2.countP isSubmit = 1) :=
  ⟨by decide, C4_pass_through okEnv (by decide)⟩

/-! ## C5: decompression configuration -/

theorem ord_setCurrent_read_load (file : String) (env : Env) :
    allBefore isSetCurrentType isDecodeRead (loadTrace file env) = true := by
  unfold allBefore loadTrace
  rw [ordOk_append, ordOk_of_no_q _ _ _ (pre_safe file env),
    any_eq_false_of_all_false (pre_safe file env)]
  simp only [Bool.false_or, Bool.true_and]
  exact ordOk_of_no_p _ _ _ false fun e he => (loop_safe env.reads e he).2.2.2.2.2.2.1

/-- C5: when the native subtype is neither Float nor PCM, `loadFile` sets
the reader's current media type (to PCM) before any sample is read (in
every run every `SetCurrentMediaType` call precedes every `ReadSample`
call, and on a normal return the call happens exactly once); for a native
Float or PCM subtype the call never happens and the format is the native
subtype; in all cases the returned `AudioFile`'s format describes raw
(PCM or Float) data. -/
theorem C5_decode_to_raw (env : Env) (f : AudioFile) :
    allBefore isSetCurrentType isDecodeRead (loadFile testFileName env).2 = true ∧
    ((loadFile testFileName env).1 = Outcome.ok f →
      ((loadFile testFileName env).2.countP isSetCurrentType
        = if needsDecode env then 1 else 0) ∧
      (f.format = Guid.audioFormatPCM ∨ f.format = Guid.audioFormatFloat) ∧
      (needsDecode env = false → f.format = env.subType)) := by
  constructor
  · exact allBefore_mono (loadFile_trace_pre testFileName env)
      (ord_setCurrent_read_load testFileName env)
  · intro h
    obtain ⟨rfl, htr⟩ := loadFile_ok testFileName env f h
    have hloopz : (loopEvents env.reads).countP isSetCurrentType = 0 :=
      List.countP_eq_zero.mpr fun x hx => by
        simp [(loop_safe env.reads x hx).2.2.2.2.2.2.1]
    refine ⟨?_, ?_, ?_⟩
    · rw [htr]
      unfold loadTrace
      rw [List.countP_append, hloopz]
      by_cases hd : needsDecode env
      · simp [preTrace, decodeEvents, hd, isSetCurrentType]
      · simp only [Bool.not_eq_true] at hd
        simp [preTrace, decodeEvents, hd, isSetCurrentType]
    · unfold fileOf chosenFormat
      by_cases hd : needsDecode env
      · simp [hd]
      · simp only [Bool.not_eq_true] at hd
        simp only [hd, Bool.false_eq_true, if_false]
        have hsub : env.subType = Guid.audioFormatFloat ∨ env.subType = Guid.audioFormatPCM := by
          revert hd
          unfold needsDecode
          rcases env.subType with _ | _ | _ | n <;> simp
        rcases hsub with hsub | hsub <;> simp [hsub]
    · intro hd
      unfold fileOf chosenFormat
      simp [hd]

/-- Witness for `C5_decode_to_raw` with a native Float subtype: the
media type is left unchanged and the returned format is the native
Float subtype. -/
theorem C5_decode_to_raw_witness :
    (loadFile testFileName floatEnv).1 = Outcome.ok (fileOf floatEnv) ∧
    (((loadFile testFileName floatEnv).2.countP isSetCurrentType
        = if needsDecode floatEnv then 1 else 0) ∧
     ((fileOf floatEnv).format = Guid.audioFormatPCM ∨
      (fileOf floatEnv).format = Guid.audioFormatFloat) ∧
     (needsDecode floatEnv = false → (fileOf floatEnv).format = floatEnv.subType)) :=
  ⟨by decide, (C5_decode_to_raw floatEnv (fileOf floatEnv)).2 (by decide)⟩

/-! ## C6: a mid-stream media-type change ends the read loop silently -/

theorem bindRun_fst_ok {α β : Type} {r : RunM α} {f : α → RunM β} {a : α}
    (h : r.1 = Outcome.ok a) : (bindRun r f).1 = (f a).1 := by
  rw [bindRun_of_ok h]

theorem call_fst_ok {hr : Int} (ev : Event) (h : FAILED hr = false) :
    (call ev hr).1 = Outcome.ok () := by
  rw [call_eq_of_ok ev h]

/-- All four HRESULTs of one loop iteration succeed. -/
def readOk (r : ReadResult) : Bool :=
  !FAILED r.hr && !FAILED r.convertHr && !FAILED r.lockHr && !FAILED r.unlockHr

/-- Every call of `loadFile` before the read loop succeeds and the major
type really is audio (so the `assert` passes). -/
def EnvLoadOk (env : Env) : Prop :=
  FAILED env.createReaderHr = false ∧ FAILED env.deselectAllHr = false ∧
  FAILED env.selectStreamHr = false ∧ FAILED env.nativeTypeHr = false ∧
  FAILED env.majorTypeHr = false ∧ env.majorType = Guid.mediaTypeAudio ∧
  FAILED env.subTypeHr = false ∧ FAILED env.createTypeHr = false ∧
  FAILED env.setMajorHr = false ∧ FAILED env.setSubHr = false ∧
  FAILED env.setCurrentHr = false ∧ FAILED env.getCurrentHr = false ∧
  FAILED env.waveFormatHr = false ∧ FAILED env.selectStream2Hr = false

/-- If the reads up to some response succeed without a terminating flag,
and that response succeeds but reports a media-type change, the loop
returns normally with exactly the bytes accumulated so far. -/
theorem readLoop_cmtc (pre : List ReadResult) :
    ∀ (rc : ReadResult) (rest : List ReadResult),
      pre.all (fun r => readOk r && !stopRead r) = true →
      FAILED rc.hr = false →
      mediaTypeChangedFlag rc.flags = true →
      (readLoop (pre ++ rc :: rest)).1
        = Outcome.ok ((pre.map ReadResult.sampleData).flatten) := by
  induction pre with
  | nil =>
    intro rc rest hall hhr hflag
    rw [List.nil_append]
    unfold readLoop
    simp only [bindRun_fst_ok (call_fst_ok Event.readSample hhr), hflag, if_true]
    simp [pureRun]
  | cons r pre ih =>
    intro rc rest hall hhr hflag
    rw [List.all_cons, Bool.and_eq_true] at hall
    obtain ⟨hr1, hall⟩ := hall
    rw [Bool.and_eq_true] at hr1
    obtain ⟨hok, hstop⟩ := hr1
    have hstop' : stopRead r = false := by
      rcases hsr : stopRead r
      · rfl
      · rw [hsr] at hstop
        simp at hstop
    have hfl : mediaTypeChangedFlag r.flags = false ∧ endOfStreamFlag r.flags = false := by
      revert hstop'
      unfold stopRead
      rcases mediaTypeChangedFlag r.flags <;> rcases endOfStreamFlag r.flags <;> simp
    have hro := hok
    unfold readOk at hro
    simp only [Bool.and_eq_true, Bool.not_eq_true'] at hro
    obtain ⟨⟨⟨ha, hb⟩, hc⟩, hd2⟩ := hro
    rw [List.cons_append]
    unfold readLoop
    simp only [bindRun_fst_ok (call_fst_ok Event.readSample ha),
      hfl.1, hfl.2, Bool.false_eq_true, if_false,
      bindRun_fst_ok (call_fst_ok Event.convertToContiguousBuffer hb),
      bindRun_fst_ok (call_fst_ok Event.lockBuffer hc),
      bindRun_fst_ok (call_fst_ok Event.unlockBuffer hd2),
      bindRun_fst_ok (ih rc rest hall hhr hflag)]
    simp [pureRun]

/-- With every pre-loop call succeeding, `loadFile`'s outcome is the read
loop's outcome, packaged with the negotiated format. -/
theorem loadFile_fst_of_ok (file : String) {env : Env} (h : EnvLoadOk env)
    {d : List Nat} (hloop : (readLoop env.reads).1 = Outcome.ok d) :
    (loadFile file env).1
      = Outcome.ok ⟨d, chosenFormat env, env.waveFormatLen⟩ := by
  obtain ⟨h1, h2, h3, h4, h5, h6, h7, h8, h9, h10, h11, h12, h13, h14⟩ := h
  have hassert : (assertCheck (env.majorType == Guid.mediaTypeAudio)).1
      = Outcome.ok () := by
    rw [h6]
    rfl
  unfold loadFile
  simp only [bindRun_fst_ok (call_fst_ok (Event.createSourceReaderFromURL file) h1),
    bindRun_fst_ok (call_fst_ok (Event.setStreamSelection true false) h2),
    bindRun_fst_ok (call_fst_ok (Event.setStreamSelection false true) h3),
    bindRun_fst_ok (call_fst_ok Event.getNativeMediaType h4),
    bindRun_fst_ok (call_fst_ok Event.getGUIDMajorType h5),
    bindRun_fst_ok hassert,
    bindRun_fst_ok (call_fst_ok Event.getGUIDSubType h7)]
  by_cases hd : needsDecode env
  · have hbranch : (bindRun (call Event.mfCreateMediaType env.createTypeHr) fun _ =>
        bindRun (call Event.setGUIDMajorType env.setMajorHr) fun _ =>
        bindRun (call Event.setGUIDSubType env.setSubHr) fun _ =>
        bindRun (call Event.setCurrentMediaType env.setCurrentHr) fun _ =>
        pureRun Guid.audioFormatPCM).1 = Outcome.ok Guid.audioFormatPCM := by
      simp only [bindRun_fst_ok (call_fst_ok Event.mfCreateMediaType h8),
        bindRun_fst_ok (call_fst_ok Event.setGUIDMajorType h9),
        bindRun_fst_ok (call_fst_ok Event.setGUIDSubType h10),
        bindRun_fst_ok (call_fst_ok Event.setCurrentMediaType h11)]
      rfl
    simp only [hd, if_true, bindRun_fst_ok hbranch,
      bindRun_fst_ok (call_fst_ok Event.getCurrentMediaType h12),
      bindRun_fst_ok (call_fst_ok Event.createWaveFormat h13),
      bindRun_fst_ok (call_fst_ok (Event.setStreamSelection false true) h14),
      bindRun_fst_ok hloop]
    simp [pureRun, chosenFormat, hd]
  · have hd' : needsDecode env = false := by simpa using hd
    simp only [hd', Bool.false_eq_true, if_false,
      bindRun_fst_ok
        (show (pureRun env.subType).1 = Outcome.ok env.subType from rfl),
      bindRun_fst_ok (call_fst_ok Event.getCurrentMediaType h12),
      bindRun_fst_ok (call_fst_ok Event.createWaveFormat h13),
      bindRun_fst_ok (call_fst_ok (Event.setStreamSelection false true) h14),
      bindRun_fst_ok hloop]
    simp [pureRun, chosenFormat, hd']

/-- C6: when a `ReadSample` call succeeds but reports that the current
media type changed, `loadFile` stops reading and returns the bytes
accumulated so far (possibly none) as a normal result, without throwing
or signalling any error. -/
theorem C6_media_type_change (env : Env) (pre : List ReadResult) (rc : ReadResult)
    (rest : List ReadResult)
    (henv : EnvLoadOk env)
    (hreads : env.reads = pre ++ rc :: rest)
    (hpre : pre.all (fun r => readOk r && !stopRead r) = true)
    (hrc : FAILED rc.hr = false)
    (hflag : mediaTypeChangedFlag rc.flags = true) :
    (loadFile testFileName env).1
      = Outcome.ok ⟨(pre.map ReadResult.sampleData).flatten, chosenFormat env,
          env.waveFormatLen⟩ := by
  have hloop : (readLoop env.reads).1
      = Outcome.ok ((pre.map ReadResult.sampleData).flatten) := by
    rw [hreads]
    exact readLoop_cmtc pre rc rest hpre hrc hflag
  exact loadFile_fst_of_ok testFileName henv hloop

/-- Witness for `C6_media_type_change`: one data sample, then a
media-type-change response; `loadFile` returns normally with just the
first sample's bytes. -/
theorem C6_media_type_change_witness :
    EnvLoadOk mtcEnv ∧
    mtcEnv.reads = [okRead1] ++ okReadMTC :: [] ∧
    [okRead1].all (fun r => readOk r && !stopRead r) = true ∧
    FAILED okReadMTC.hr = false ∧
    mediaTypeChangedFlag okReadMTC.flags = true ∧
    (loadFile testFileName mtcEnv).1
      = Outcome.ok ⟨([okRead1].map ReadResult.sampleData).flatten, chosenFormat mtcEnv,
          mtcEnv.waveFormatLen⟩ :=
  ⟨by exact ⟨rfl, rfl, rfl, rfl, rfl, rfl, rfl, rfl, rfl, rfl, rfl, rfl, rfl, rfl⟩,
    by decide, by decide, by decide, by decide,
    C6_media_type_change mtcEnv [okRead1] okReadMTC []
      ⟨rfl, rfl, rfl, rfl, rfl, rfl, rfl, rfl, rfl, rfl, rfl, rfl, rfl, rfl⟩
      (by decide) (by decide) (by decide) (by decide)⟩

/-! ## C7: the fixed 7000 ms wait -/

/-- C7: after starting playback `main` always waits exactly 7000
milliseconds and then destroys the mastering voice: in every run, for
every environment — in particular regardless of the decoded audio's
length — the only sleep the program can perform is `Sleep(7000)`, it
sleeps at most once, and a run that returns normally ends with
`Start`, `Sleep(7000)`, `DestroyVoice`, `MFShutdown`; no call that waits
for the submitted buffer or the stream to finish exists in the program. -/
theorem C7_fixed_wait (env : Env) :
    (∀ e ∈ (Xa2.main env).2, isSleep e = true → e = Event.sleep 7000) ∧
    (Xa2.main env).2.countP isSleep ≤ 1 ∧
    ((Xa2.main env).1 = Outcome.ok () →
      ∃ pre, (Xa2.main env).2
        = pre ++ [Event.startVoice, Event.sleep 7000, Event.destroyVoice,
            Event.mfShutdown]) := by
  refine ⟨?_, ?_, ?_⟩
  · intro e he hsleep
    have he2 : e ∈ successTrace env := (main_trace_pre env).subset he
    unfold successTrace at he2
    rw [List.mem_append, List.mem_append] at he2
    rcases he2 with hf | hl | ht
    · rw [(front_safe env e hf).2.2.2.2.2] at hsleep
      cases hsleep
    · rw [(loop_safe env.reads e hl).2.2.2.2.2.1] at hsleep
      cases hsleep
    · rcases mem_tailTrace ht with rfl | rfl | rfl | rfl | rfl | rfl | rfl | rfl | rfl <;>
        first
        | rfl
        | cases hsleep
  · refine countP_main_le_one env isSleep
      (fun x hx => (loop_safe env.reads x hx).2.2.2.2.2.1) ?_
    by_cases hd : needsDecode env
    · simp [frontTrace, preTrace, decodeEvents, tailTrace, hd, isSleep]
    · simp only [Bool.not_eq_true] at hd
      simp [frontTrace, preTrace, decodeEvents, tailTrace, hd, isSleep]
  · intro h
    refine ⟨frontTrace env ++ (loopEvents env.reads ++
      [Event.coInitializeEx, Event.xAudio2Create, Event.createMasteringVoice,
       Event.createSourceVoice,
       Event.submitSourceBuffer ((loopData env.reads).length % UINT32_MOD)
         (loopData env.reads)]), ?_⟩
    rw [main_ok_trace env h]
    simp [successTrace, tailTrace]

/-- Witness for `C7_fixed_wait` at the concrete all-success
environment: the trace contains the `Sleep(7000)` call, and the suffix
shape holds. -/
theorem C7_fixed_wait_witness :
    Event.sleep 7000 ∈ (Xa2.main okEnv).2 ∧
    isSleep (Event.sleep 7000) = true ∧
    Event.sleep 7000 = Event.sleep 7000 ∧
    (Xa2.main okEnv).1 = Outcome.ok () ∧
    ∃ pre, (Xa2.main okEnv).2
      = pre ++ [Event.startVoice, Event.sleep 7000, Event.destroyVoice,
          Event.mfShutdown] :=
  ⟨by decide, by decide,
    (C7_fixed_wait okEnv).1 (Event.sleep 7000) (by decide) (by decide),
    by decide, (C7_fixed_wait okEnv).2.2 (by decide)⟩

/-! ## C8: no persistent state -/

/-- C8: the program has no persistent component: of all the platform
calls a run performs, the only one that touches the file system is the
creation of the source reader, which opens `test.mp3` for reading; it
happens at most once, and no call in the program's vocabulary writes to
persistent storage. -/
theorem C8_no_persistence (env : Env) :
    (∀ e ∈ (Xa2.main env).2, isFileAccess e = true →
      e = Event.createSourceReaderFromURL testFileName) ∧
    (Xa2.main env).2.countP isFileAccess ≤ 1 := by
  constructor
  · intro e he hfa
    have he2 : e ∈ successTrace env := (main_trace_pre env).subset he
    unfold successTrace at he2
    rw [List.mem_append, List.mem_append] at he2
    rcases he2 with hf | hl | ht
    · rcases mem_frontTrace hf with
        rfl | rfl | rfl | rfl | rfl | rfl | rfl | rfl | rfl | rfl | rfl | rfl | rfl |
        rfl | rfl <;>
        first
        | rfl
        | cases hfa
    · rw [(loop_safe env.reads e hl).2.2.2.2.2.2.2] at hfa
      cases hfa
    · rcases mem_tailTrace ht with rfl | rfl | rfl | rfl | rfl | rfl | rfl | rfl | rfl <;>
        cases hfa
  · refine countP_main_le_one env isFileAccess
      (fun x hx => (loop_safe env.reads x hx).2.2.2.2.2.2.2) ?_
    by_cases hd : needsDecode env
    · simp [frontTrace, preTrace, decodeEvents, tailTrace, hd, isFileAccess]
    · simp only [Bool.not_eq_true] at hd
      simp [frontTrace, preTrace, decodeEvents, tailTrace, hd, isFileAccess]

/-- Witness for `C8_no_persistence` at the concrete all-success
environment. -/
theorem C8_no_persistence_witness :
    Event.createSourceReaderFromURL testFileName ∈ (Xa2.main okEnv).2 ∧
    isFileAccess (Event.createSourceReaderFromURL testFileName) = true ∧
    Event.createSourceReaderFromURL testFileName
      = Event.createSourceReaderFromURL testFileName ∧
    (Xa2.main okEnv).2.countP isFileAccess ≤ 1 :=
  ⟨by decide, by decide,
    (C8_no_persistence okEnv).1 (Event.createSourceReaderFromURL testFileName)
      (by decide) (by decide),
    (C8_no_persistence okEnv).2⟩

/-! ## C9: `AudioBytes` is the size truncated to 32 bits -/

/-- C9: the submitted buffer's `AudioBytes` field is the vector's size
narrowed to `UINT32`: for every non-empty `AudioFile`, the first call
`playVoice` makes is `SubmitSourceBuffer` with byte count
`file.data.size % 2^32`, and when the vector holds at least `2^32`
bytes that count differs from the true size. -/
theorem C9_audio_bytes_truncated (env : Env) (file : AudioFile)
    (h : file.data ≠ []) :
    (playVoice env file).2.head?
      = some (Event.submitSourceBuffer (file.data.length % UINT32_MOD) file.data) ∧
    (UINT32_MOD ≤ file.data.length →
      file.data.length % UINT32_MOD ≠ file.data.length) := by
  constructor
  · have hne : file.data.isEmpty = false := by
      simp [List.isEmpty_iff, h]
    have ha : (assertCheck (!file.data.isEmpty)).1 = Outcome.ok () := by
      rw [hne]
      rfl
    unfold playVoice
    rw [bindRun_of_ok ha]
    by_cases hs : FAILED env.submitHr
    · rw [bindRun_of_err (show (call (Event.submitSourceBuffer
          (file.data.length % UINT32_MOD) file.data) env.submitHr).1
            = Outcome.err ⟨env.submitHr⟩ by
          rw [call_eq_of_failed _ hs])]
      rw [call_eq_of_failed _ hs]
      simp [assertCheck, hne]
    · simp only [Bool.not_eq_true] at hs
      rw [bindRun_of_ok (show (call (Event.submitSourceBuffer
          (file.data.length % UINT32_MOD) file.data) env.submitHr).1
            = Outcome.ok () by
          rw [call_eq_of_ok _ hs])]
      rw [call_eq_of_ok _ hs]
      simp [assertCheck, hne, emitEvent]
  · intro hlen
    have hpos : 0 < UINT32_MOD := by norm_num [UINT32_MOD]
    have hlt := Nat.mod_lt file.data.length hpos
    omega

/-- A decoded file holding exactly `2^32` zero bytes. -/
def bigFile : AudioFile :=
  ⟨List.replicate UINT32_MOD 0, Guid.audioFormatPCM, 18⟩

/-- Witness for `C9_audio_bytes_truncated`: on a `2^32`-byte file the
submitted byte count is the size reduced mod `2^32`, which is not the
size. -/
theorem C9_audio_bytes_truncated_witness :
    bigFile.data ≠ [] ∧
    (playVoice okEnv bigFile).2.head?
      = some (Event.submitSourceBuffer (bigFile.data.length % UINT32_MOD)
          bigFile.data) ∧
    bigFile.data.length % UINT32_MOD ≠ bigFile.data.length := by
  have hlen : bigFile.data.length = UINT32_MOD := by
    show (List.replicate UINT32_MOD (0 : Nat)).length = UINT32_MOD
    exact List.length_replicate UINT32_MOD 0
  have hne : bigFile.data ≠ [] := by
    intro hx
    rw [hx] at hlen
    have h0 : (0 : Nat) = UINT32_MOD := hlen
    rw [UINT32_MOD] at h0
    exact absurd h0 (by norm_num)
  have hthm := C9_audio_bytes_truncated okEnv bigFile hne
  exact ⟨hne, hthm.1, hthm.2 (le_of_eq hlen.symm)⟩
